import Mathlib

/-!
Verification of the conversation state machine of the Acme Dental booking
agent (`src/graph.py`).  The Python `AgentState` TypedDict is embedded as a
Lean structure; each LangGraph node is embedded as a pure function on that
structure.  External collaborators (the Calendly scheduling client, the LLM
extraction service, the regex engine and the datetime library) are passed in
as explicit parameters holding the value the collaborator would have
returned, with `Except.error` modelling a raised exception.  LangGraph's
`add_messages` reducer appends the messages returned by a node to the running
message list, so the embedded nodes return the post-reducer state: a node
that returns `{"messages": [AIMessage(msg)]}` is embedded as
`messages := st.messages ++ [aiMsg msg]`.
-/

namespace AgenticDental

/-- Role of a chat message (`HumanMessage` / `AIMessage`). -/
inductive Role where
  | human
  | ai
deriving DecidableEq, BEq, Repr

/-- A chat message: role plus text content. -/
structure Message where
  role : Role
  content : String
deriving DecidableEq, Repr

def humanMsg (s : String) : Message := ⟨Role.human, s⟩

def aiMsg (s : String) : Message := ⟨Role.ai, s⟩

/-- An offered appointment slot as returned by
`CalendlyClient.get_available_times`: a dict carrying a `start_time`
ISO-8601 string. -/
structure Slot where
  start_time : String
deriving DecidableEq, Repr, Inhabited

/-- A scheduled event as returned by
`CalendlyClient.list_scheduled_events`: a dict with `uri`, `start_time`
and optionally an invitee `name`. -/
structure Booking where
  uri : String
  start_time : String
  name : Option String := none
deriving DecidableEq, Repr, Inhabited

/-- Embedding of the `AgentState` TypedDict of `src/graph.py`
(equivalently `src/state.py`).  The driver (`src/main.py`) initialises
every key, so every channel is always present; `None` is `Option.none`.
The undeclared key `booking_stage` written by `booking_create` is not a
channel of `AgentState` and is not part of the embedded state. -/
structure AgentState where
  messages : List Message
  intent : Option String
  flow : String
  user_name : Option String
  user_email : Option String
  time_preference : Option String
  asked_for_preference : Bool
  available_slots : Option (List Slot)
  selected_slot : Option String
  lookup_email : Option String
  matched_events : Option (List Booking)
  selected_event_uri : Option String
  confirmed : Bool
  error : Option String
deriving DecidableEq, Repr

/-- Python `s.lower()` (character-wise, as on the ASCII keywords the
controller scans for). -/
def toLowerS (s : String) : String := ⟨s.data.map Char.toLower⟩

/-- Python `s.upper()` (character-wise, as on the one-word intent labels). -/
def toUpperS (s : String) : String := ⟨s.data.map Char.toUpper⟩

/-- Python `s.strip()`: whitespace removed from both ends. -/
def trimS (s : String) : String :=
  ⟨((s.data.dropWhile Char.isWhitespace).reverse.dropWhile Char.isWhitespace).reverse⟩

/-- Worker for `pySplit`, fuelled so that it reduces in the kernel; every
recursive call shortens the subject list, so `length + 1` fuel never runs
out. -/
def splitOnAux (sep : List Char) : Nat → List Char → List Char → List (List Char)
  | 0, cs, acc => [acc.reverse ++ cs]
  | _ + 1, [], acc => [acc.reverse]
  | fuel + 1, c :: cs, acc =>
    if sep.isPrefixOf (c :: cs) then
      acc.reverse :: splitOnAux sep fuel ((c :: cs).drop sep.length) []
    else
      splitOnAux sep fuel cs (c :: acc)

/-- Python `s.split(sep)` for a nonempty separator: split at each
non-overlapping occurrence, keeping empty segments. -/
def pySplit (s sep : String) : List String :=
  if sep.data = [] then [s]
  else (splitOnAux sep.data (s.data.length + 1) s.data []).map String.mk

/-- Python `s.startswith(pre)`. -/
def pyStartsWith (s pre : String) : Bool := pre.data.isPrefixOf s.data

/-- Python truthiness of an optional string: `None` and `""` are falsy. -/
def pyTruthyStr : Option String → Bool
  | none => false
  | some s => decide (s ≠ "")

/-- Python `a or b` on optional strings. -/
def pyOrStr (a b : Option String) : Option String :=
  if pyTruthyStr a then a else b

/-- `next((m for m in reversed(state["messages"]) if isinstance(m, HumanMessage)), None)` -/
def lastUserMsg (st : AgentState) : Option Message :=
  st.messages.reverse.find? (fun m => m.role == Role.human)

/-- Python `pat in hay` on strings: substring containment. -/
def strContains (hay pat : String) : Bool :=
  decide (pat.data <:+: hay.data)

/-- Python `any(keyword in content for keyword in keywords)`. -/
def containsAny (hay : String) (pats : List String) : Bool :=
  pats.any (strContains hay)

/-- `cancel_keywords` of `check_existing_flow` / `router`. -/
def cancel_keywords : List String := ["cancel", "cancellation", "delete", "remove"]

/-- `book_keywords` of `check_existing_flow` / `router`. -/
def book_keywords : List String :=
  ["book", "appointment", "schedule", "slot", "available", "checkup", "check-up"]

/-- The interrupt keyword scan of `check_existing_flow` (graph.py lines
57-76): priority cancel, then reschedule, then book; `none` when no
keyword family matches. -/
def detectInterrupt (contentLower : String) : Option String :=
  if containsAny contentLower cancel_keywords then some "CANCEL"
  else if strContains contentLower "reschedule" || strContains contentLower "change"
      || strContains contentLower "move" then some "RESCHEDULE"
  else if containsAny contentLower book_keywords then some "BOOK"
  else none

/-- Entry node `check_existing_flow` (graph.py lines 43-85).  If the flow
is IDLE the state passes through; otherwise the latest user message is
scanned for interrupt keywords and, when a *different* flow is detected,
only `flow` and `intent` are rewritten. -/
def check_existing_flow (st : AgentState) : AgentState :=
  if st.flow = "IDLE" then st
  else
    match lastUserMsg st with
    | none => st
    | some m =>
      let contentLower := toLowerS m.content
      match detectInterrupt contentLower with
      | some nf => if nf ≠ st.flow then { st with flow := nf, intent := some nf } else st
      | none => st

/-- Digit run of a Python integer literal: digits with single underscores
allowed strictly between digits (`pyDigitsCore` drops the underscores).
`none` when a non-digit appears or an underscore is not followed by a
digit. -/
def pyDigitsCore : List Char → Option (List Char)
  | [] => some []
  | c :: rest =>
    if c.isDigit then (pyDigitsCore rest).map (c :: ·)
    else if c = '_' then
      match rest with
      | [] => none
      | d :: _ => if d.isDigit then pyDigitsCore rest else none
    else none

/-- Numeric value of a list of decimal digits. -/
def digitsVal (cs : List Char) : Nat :=
  cs.foldl (fun a c => a * 10 + (c.toNat - 48)) 0

/-- Unsigned part of Python `int(...)`: must start with a digit. -/
def pyNatDigits? (cs : List Char) : Option Nat :=
  match cs with
  | [] => none
  | c :: _ => if c.isDigit then (pyDigitsCore cs).map digitsVal else none

/-- Python `int(s)` returning `none` where CPython raises `ValueError`:
surrounding whitespace is stripped, one optional sign, then ASCII digits
with single underscores between digits. -/
def pyInt? (s : String) : Option Int :=
  let cs := (trimS s).data
  match cs with
  | [] => none
  | c :: rest =>
    if c = '-' then (pyNatDigits? rest).map (fun n => -(n : Int))
    else if c = '+' then (pyNatDigits? rest).map (fun n => (n : Int))
    else (pyNatDigits? cs).map (fun n => (n : Int))

/-- Identity extractor `booking_collect_identity` (graph.py lines 141-225),
given that the `llm.invoke` of line 192 returned.  `llmExtract` is the
outcome of the `try` block that starts at line 197: `some (name?, email?)`
holds the parsed `data.get("name")` / `data.get("email")`, `none` models
an exception inside the block (malformed JSON, best-effort slicing
failure).  A raise of `llm.invoke` itself is not caught and escapes the
node; that path returns no state and is embedded separately as
`booking_collect_identity_raising`.  `regexEmails` is
`re.findall(email_pattern, text)` on the last user message, computed by
the regex engine. -/
def booking_collect_identity (llmExtract : Option (Option String × Option String))
    (regexEmails : List String) (st : AgentState) : AgentState :=
  if pyTruthyStr st.user_name && pyTruthyStr st.user_email then st
  else
    match lastUserMsg st with
    | none => st
    | some m =>
      let text := m.content
      let regexEmail : Option String := regexEmails.head?
      let regexName : Option String :=
        match regexEmail with
        | none => none
        | some e =>
          let namePart := trimS ((pySplit text e).headD "")
          if namePart ≠ "" ∧ namePart.length > 2 then some namePart else none
      match llmExtract with
      | some (jsonName, jsonEmail) =>
        -- name = data.get("name") or regex_name; email = data.get("email") or regex_email
        let name := pyOrStr jsonName regexName
        let email := pyOrStr jsonEmail regexEmail
        let st1 := if pyTruthyStr name then { st with user_name := name } else st
        if pyTruthyStr email then { st1 with user_email := email } else st1
      | none =>
        -- except path: use regex results, guarded by truthiness
        let st1 := if pyTruthyStr regexName then { st with user_name := regexName } else st
        if pyTruthyStr regexEmail then { st1 with user_email := regexEmail } else st1

/-- Weekday name (lower-cased `strftime("%A")`) and hour of a parsed slot
start time. -/
structure TimeInfo where
  dayName : String
  hour : Nat
deriving DecidableEq, Repr

/-- `day_match = not requested_days or day_name in requested_days` -/
def dayMatches (requestedDays : List String) (dayName : String) : Bool :=
  requestedDays.isEmpty || requestedDays.contains dayName

/-- Membership test for the *exact* bucket of `booking_check_availability`
(graph.py lines 384-415).  `parseTime` stands for
`datetime.fromisoformat(slot["start_time"].replace("Z", "+00:00"))`
followed by `strftime("%A").lower()` / `.hour`; `none` models the
per-slot `except: continue`.  The source builds the buckets by appending
inside a single loop; since each append depends only on the slot, the
buckets equal filters of the slot list by these per-slot predicates. -/
def slotExactMatch (parseTime : String → Option TimeInfo)
    (requestedDays : List String) (specificHour : Option Int)
    (generalTime : Option String) (slot : Slot) : Bool :=
  match parseTime slot.start_time with
  | none => false
  | some ti =>
    if dayMatches requestedDays ti.dayName then
      match specificHour with
      | some sh => (ti.hour : Int) = sh
      | none =>
        match generalTime with
        | some gt =>
          decide ((gt = "morning" ∧ 6 ≤ ti.hour ∧ ti.hour < 12)
            ∨ (gt = "afternoon" ∧ 12 ≤ ti.hour ∧ ti.hour < 17)
            ∨ (gt = "evening" ∧ 17 ≤ ti.hour ∧ ti.hour < 21))
        | none => true
    else false

/-- Membership test for the *fallback* bucket of
`booking_check_availability` (graph.py lines 398-402): only reachable for
a day-matching slot whose hour differs from the requested specific hour,
and only when the requested hour is before 12 (slot hour in 6..11) or in
12..16 (slot hour in 12..16).  A requested hour ≥ 17 has no fallback
branch. -/
def slotFallbackMatch (parseTime : String → Option TimeInfo)
    (requestedDays : List String) (specificHour : Option Int) (slot : Slot) : Bool :=
  match parseTime slot.start_time with
  | none => false
  | some ti =>
    if dayMatches requestedDays ti.dayName then
      match specificHour with
      | some sh =>
        decide ((ti.hour : Int) ≠ sh ∧
          ((sh < 12 ∧ 6 ≤ ti.hour ∧ ti.hour < 12)
            ∨ (12 ≤ sh ∧ sh < 17 ∧ 12 ≤ ti.hour ∧ ti.hour < 17)))
      | none => false
    else false

/-- `specific_hour % 12 or 12` (Python `%` agrees with `Int.emod` for the
positive modulus 12). -/
def pyHour12 (sh : Int) : Int :=
  let r := sh % 12
  if r = 0 then 12 else r

/-- `f"{specific_hour % 12 or 12} {'AM' if specific_hour < 12 else 'PM'}"` -/
def timeStr (sh : Int) : String :=
  toString (pyHour12 sh) ++ " " ++ (if sh < 12 then "AM" else "PM")

/-- `days_str` used by the exact-bucket headers. -/
def daysStrOr (requestedDays : List String) (dflt : String) : String :=
  if requestedDays.isEmpty then dflt else String.intercalate ", " requestedDays

/-- `msg_header` of the exact-bucket branch (graph.py lines 419-427). -/
def exactHeader (requestedDays : List String) (specificHour : Option Int)
    (generalTime : Option String) : String :=
  let days := daysStrOr requestedDays "any day"
  match specificHour with
  | some sh => "Here are slots for " ++ days ++ " at " ++ timeStr sh ++ ":"
  | none =>
    match generalTime with
    | some gt => "Here are " ++ gt ++ " slots for " ++ days ++ ":"
    | none => "Here are slots for " ++ days ++ ":"

/-- `msg_header` of the fallback-bucket branch (graph.py lines 428-433).
The `none` case is unreachable: the fallback bucket is empty when no
specific hour was requested. -/
def fallbackHeader (requestedDays : List String) (specificHour : Option Int) : String :=
  match specificHour with
  | some sh =>
    let days := daysStrOr requestedDays "those days"
    let fallbackTime := if sh < 12 then "morning" else "afternoon"
    "I don't have " ++ timeStr sh ++ " available, but here are " ++ fallbackTime
      ++ " times for " ++ days ++ ":"
  | none => ""

/-- Header of the no-match branch (graph.py line 437). -/
def noMatchHeader : String :=
  "No slots found for your preference. Here are all available times:"

/-- Bucket selection of `booking_check_availability` (graph.py lines
380-437): returns `(display_slots, msg_header)`. -/
def selectDisplay (parseTime : String → Option TimeInfo)
    (requestedDays : List String) (specificHour : Option Int)
    (generalTime : Option String) (slots : List Slot) : List Slot × String :=
  let exact := slots.filter (slotExactMatch parseTime requestedDays specificHour generalTime)
  let fallback := slots.filter (slotFallbackMatch parseTime requestedDays specificHour)
  if exact ≠ [] then (exact.take 10, exactHeader requestedDays specificHour generalTime)
  else if fallback ≠ [] then (fallback.take 10, fallbackHeader requestedDays specificHour)
  else (slots.take 10, noMatchHeader)

/-- Parsing of the delimited preference string by
`booking_check_availability` (graph.py lines 369-378):
`requested_days`, `specific_hour`, `general_time`.  `none` models the
`ValueError` raised by `int(parts[1].split(":")[1])` on a malformed hour
component, which the node's outer handler turns into an error state. -/
def prefComponents (preference : String) :
    Option (List String × Option Int × Option String) :=
  let parts := pySplit preference "|"
  let p0 := parts.headD ""
  let requestedDays := if p0 ≠ "" then pySplit p0 "," else []
  match parts.get? 1 with
  | some p1 =>
    if pyStartsWith p1 "hour:" then
      match pyInt? ((pySplit p1 ":").getD 1 "") with
      | none => none
      | some sh => some (requestedDays, some sh, none)
    else some (requestedDays, none, some p1)
  | none => some (requestedDays, none, none)

/-- Preference dispatch of `booking_check_availability` (graph.py lines
364-437): parse the delimited preference string and pick the display
slots and header. -/
def matchSlots (parseTime : String → Option TimeInfo) (preference : String)
    (slots : List Slot) : Option (List Slot × String) :=
  if preference = "any" then
    some (slots.take 10, "Here are the next available appointment slots:")
  else
    match prefComponents preference with
    | none => none
    | some (requestedDays, specificHour, generalTime) =>
      some (selectDisplay parseTime requestedDays specificHour generalTime slots)

/-- Availability matcher node `booking_check_availability` (graph.py lines
337-454).  `fetchSlots` stands for the Calendly calls of lines 352-356
(`Except.error` = a raised exception, caught by the outer handler);
`parseTime` for the datetime library; `formatSlots` for the
strftime-based rendering of the numbered slot list (lines 440-448).
`st.time_preference = none` is routed to the error state: `None` has no
`.split`, so the outer handler catches the `AttributeError`. -/
def booking_check_availability (fetchSlots : Except String (List Slot))
    (parseTime : String → Option TimeInfo) (formatSlots : List Slot → String)
    (st : AgentState) : AgentState :=
  match fetchSlots with
  | .error e => { st with error := some ("ERROR: " ++ e) }
  | .ok slots =>
    if slots = [] then { st with error := some "No available slots found." }
    else
      match st.time_preference with
      | none => { st with error := some "ERROR: 'NoneType' object has no attribute 'split'" }
      | some preference =>
        match matchSlots parseTime preference slots with
        | none =>
          { st with error := some "ERROR: invalid literal for int() with base 10" }
        | some pr =>
          let msg := pr.2 ++ "\n\n" ++ formatSlots pr.1
            ++ "\n\nReply with the slot number to book (e.g., '2')."
          { st with messages := st.messages ++ [aiMsg msg],
                    available_slots := some pr.1,
                    error := none }

/-- Slot selection parser `parse_slot_selection` (graph.py lines 457-487). -/
def parse_slot_selection (st : AgentState) : AgentState :=
  match lastUserMsg st, st.available_slots with
  | none, _ => st
  | some _, none => st
  | some m, some slots =>
    if slots = [] then st  -- `not state.get("available_slots")`: empty list is falsy
    else
      let userInput := trimS m.content
      match pyInt? userInput with
      | some slotNum =>
        if 1 ≤ slotNum ∧ slotNum ≤ (slots.length : Int) then
          let selected := slots.getD (slotNum.toNat - 1) default
          { st with selected_slot := some selected.start_time }
        else
          let msg := "Please choose a number between 1 and " ++ toString slots.length ++ "."
          { st with messages := st.messages ++ [aiMsg msg] }
      | none =>
        -- ValueError: user typed text; clear slots, emit no message
        { st with available_slots := none }

/-- Which collaborator calls `booking_create` performed. -/
structure BookingEffects where
  createCalled : Bool
  cancelCalled : Bool
deriving DecidableEq, Repr

/-- Booking executor `booking_create` (graph.py lines 490-544).
`createResult` stands for `create_booking.invoke(...)` (`Except.error` =
a raised exception; `.ok s` = the returned string, which signals an API
failure by starting with "ERROR"); `cancelResult` for
`CalendlyClient().cancel_event(selected_event_uri, ...)`.  The pair
component records which of the two collaborator calls were made. -/
def booking_create (createResult : Except String String)
    (cancelResult : Except String Unit) (st : AgentState) :
    AgentState × BookingEffects :=
  if ¬ (pyTruthyStr st.selected_slot && pyTruthyStr st.user_name
      && pyTruthyStr st.user_email) then
    ({ st with error := some "Missing required information for booking" },
     ⟨false, false⟩)
  else
    match createResult with
    | .error e => ({ st with error := some ("ERROR: " ++ e) }, ⟨true, false⟩)
    | .ok result =>
      if pyStartsWith result "ERROR" then
        ({ st with error := some result }, ⟨true, false⟩)
      else
        let doCancel := st.flow = "RESCHEDULE" && pyTruthyStr st.selected_event_uri
        let rescheduleMsg :=
          if doCancel then
            match cancelResult with
            | .ok _ => "\n\n♻️ Your previous appointment has been successfully cancelled."
            | .error e =>
              "\n\n⚠️ Warning: I booked your new appointment, but failed to cancel the old one. Error: " ++ e
          else ""
        ({ st with
            messages := st.messages ++ [aiMsg (result ++ rescheduleMsg)],
            flow := "IDLE",
            intent := none,
            selected_slot := none,
            available_slots := none,
            time_preference := none,
            asked_for_preference := false,
            error := none,
            matched_events := none,
            selected_event_uri := none },
         ⟨true, doCancel⟩)

/-- `new_email` of `lookup_events`: the first regex-extracted email of the
latest user message, when there is one. -/
def newEmailOf (st : AgentState) (regexEmails : List String) : Option String :=
  match lastUserMsg st with
  | none => none
  | some _ => regexEmails.head?

/-- The `try` block of `lookup_events` (graph.py lines 597-637) once an
email has been resolved.  `newEmailFound` records whether the email came
from the latest message (then it is not persisted into `lookup_email`). -/
def lookupCore (listScheduled : String → Except String (List Booking))
    (formatBooking : Booking → String) (newEmailFound : Bool) (email : String)
    (st : AgentState) : AgentState :=
  match listScheduled email with
  | .error e =>
    { st with messages := st.messages ++ [aiMsg ("Error looking up appointments: " ++ e)],
              error := some e }
  | .ok bookings =>
    if bookings = [] then
      { st with
          messages := st.messages ++
            [aiMsg ("I couldn't find any upcoming appointments for " ++ email ++ ".")],
          lookup_email := if newEmailFound then none else some email }
    else
      let bookingList := bookings.mapIdx
        (fun i b => toString (i + 1) ++ ". " ++ formatBooking b)
      let actionPrompt := if st.flow = "CANCEL" then "cancel" else "reschedule"
      let msg :=
        if bookings.length = 1 then
          -- appt_time = booking_list[0].split(". ", 1)[1], i.e. the formatted time
          "Found your appointment on **" ++ formatBooking (bookings.headD default)
            ++ "**.\n\nIs this the one you want to " ++ actionPrompt ++ "? (Yes/No)"
        else
          "Found these appointments:\n\n" ++ String.intercalate "\n" bookingList
            ++ "\n\nWhich one would you like to " ++ actionPrompt
            ++ "? Reply with the number (1-" ++ toString bookings.length ++ ")."
      { st with
          messages := st.messages ++ [aiMsg msg],
          lookup_email := if newEmailFound then none else some email,
          matched_events := some bookings,
          user_email := some email,
          selected_event_uri := none }

/-- Event lookup node `lookup_events` (graph.py lines 554-637).
`listScheduled` stands for `CalendlyClient().list_scheduled_events`;
`regexEmails` for `re.findall(email_pattern, last_user_msg.content)`
(the same findall result is used by both extraction sites);
`formatBooking` for the strftime rendering of one booking (with its
string fallback). -/
def lookup_events (listScheduled : String → Except String (List Booking))
    (regexEmails : List String) (formatBooking : Booking → String)
    (st : AgentState) : AgentState :=
  let newEmail := newEmailOf st regexEmails
  let email0 := pyOrStr (pyOrStr newEmail st.lookup_email) st.user_email
  if pyTruthyStr email0 then
    lookupCore listScheduled formatBooking (pyTruthyStr newEmail) (email0.getD "") st
  else
    match lastUserMsg st with
    | none => st
    | some _ =>
      match regexEmails.head? with
      | none =>
        let action := if st.flow = "RESCHEDULE" then "reschedule" else "cancel"
        { st with messages := st.messages ++
            [aiMsg ("To " ++ action ++ " your appointment, please provide your email address.")] }
      | some e => lookupCore listScheduled formatBooking (pyTruthyStr newEmail) e st

/-- Cancellation confirmation node `confirm_action` (graph.py lines
720-758).  `cancelResult` stands for
`CalendlyClient().cancel_event(selected_event_uri)`. -/
def confirm_action (cancelResult : Except String Unit) (st : AgentState) : AgentState :=
  match lastUserMsg st with
  | none => st
  | some m =>
    let response := toLowerS (trimS m.content)
    if ["yes", "y", "confirm", "sure"].contains response then
      if ¬ pyTruthyStr st.selected_event_uri then st
      else
        match cancelResult with
        | .ok _ =>
          { st with
              messages := st.messages ++ [aiMsg "✅ Your appointment has been successfully canceled."],
              flow := "IDLE",
              intent := none,
              matched_events := none,
              selected_event_uri := none,
              confirmed := true }
        | .error e =>
          { st with
              messages := st.messages ++ [aiMsg ("Error cancelling appointment: " ++ e)],
              error := some e }
    else
      { st with
          messages := st.messages ++ [aiMsg "No problem! Your appointment remains scheduled."],
          flow := "IDLE",
          intent := none,
          matched_events := none,
          selected_event_uri := none }

/-- Intent classifier `router` (graph.py lines 88-138).  `classify`
stands for the `llm.invoke(...)` call of line 123 and holds
`response.content` (`Except.error` = a raised exception).  graph.py
wraps this call in no `try`, so a classification failure propagates out
of the node: the embedding returns `Except.error` for it instead of a
state. -/
def router (classify : Except String String) (st : AgentState) :
    Except String AgentState :=
  let keyworded : Option AgentState :=
    match lastUserMsg st with
    | none => none
    | some m =>
      let contentLower := toLowerS m.content
      if containsAny contentLower cancel_keywords then
        some { st with intent := some "CANCEL", flow := "CANCEL" }
      else if strContains contentLower "reschedule" || strContains contentLower "change"
          || strContains contentLower "move" then
        some { st with intent := some "RESCHEDULE", flow := "RESCHEDULE" }
      else if containsAny contentLower book_keywords then
        some { st with intent := some "BOOK", flow := "BOOK" }
      else none
  match keyworded with
  | some st2 => .ok st2
  | none =>
    match lastUserMsg st with
    | none => .ok { st with intent := some "GENERAL" }
    | some _ =>
      match classify with
      | .error e => .error e
      | .ok raw =>
        let intent0 := toUpperS (trimS raw)
        let intent :=
          if ["BOOK", "CANCEL", "RESCHEDULE", "FAQ", "GENERAL"].contains intent0 then
            intent0
          else "GENERAL"
        let flow :=
          if intent = "BOOK" then "BOOK"
          else if intent = "CANCEL" then "CANCEL"
          else if intent = "RESCHEDULE" then "RESCHEDULE"
          else "IDLE"
        .ok { st with intent := some intent, flow := flow }

/-- General-reply node `respond_to_user` (graph.py lines 800-815).
`generate` stands for the `llm.invoke(...)` call of line 813 and holds
`response.content`; the call is wrapped in no `try`, so a generation
failure propagates out of the node. -/
def respond_to_user (generate : Except String String) (st : AgentState) :
    Except String AgentState :=
  match lastUserMsg st with
  | none => .ok st
  | some _ =>
    match generate with
    | .error e => .error e
    | .ok resp => .ok { st with messages := st.messages ++ [aiMsg resp] }

/-- Node boundary of `booking_collect_identity` including the uncaught
LLM call: the `llm.invoke` of graph.py line 192 sits *before* the `try`
that starts at line 197, so a raise there escapes the node.  The two
early returns of lines 152-158 precede the call and never invoke it.
`llmResponse` holds, when the call returns, the outcome of the `try`
block's JSON parsing as in `booking_collect_identity`. -/
def booking_collect_identity_raising
    (llmResponse : Except String (Option (Option String × Option String)))
    (regexEmails : List String) (st : AgentState) : Except String AgentState :=
  if pyTruthyStr st.user_name && pyTruthyStr st.user_email then .ok st
  else
    match lastUserMsg st with
    | none => .ok st
    | some _ =>
      match llmResponse with
      | .error e => .error e
      | .ok llmExtract => .ok (booking_collect_identity llmExtract regexEmails st)

/-- The initial session state built by `src/main.py`: every channel
present, `flow = "IDLE"`, all optionals `None`. -/
def idleState : AgentState :=
  { messages := [], intent := none, flow := "IDLE", user_name := none,
    user_email := none, time_preference := none, asked_for_preference := false,
    available_slots := none, selected_slot := none, lookup_email := none,
    matched_events := none, selected_event_uri := none, confirmed := false,
    error := none }

/-- A datetime stub that fails to parse every start time. -/
def noTime : String → Option TimeInfo := fun _ => none

/-- A slot-list formatter stub. -/
def fmtNone : List Slot → String := fun _ => ""

/-- A booking formatter standing for the strftime rendering. -/
def fmtBookingTime : Booking → String := fun b => b.start_time

theorem pyTruthyStr_iff (o : Option String) :
    pyTruthyStr o = true ↔ ∃ s, o = some s ∧ s ≠ "" := by
  cases o with
  | none => simp [pyTruthyStr]
  | some s => simp [pyTruthyStr]

/-- Concrete mid-BOOK state used for the C1 counterexample: slots are
already on the table when the user interrupts with a cancel request. -/
def c1State : AgentState :=
  { idleState with
      flow := "BOOK", intent := some "BOOK",
      messages := [humanMsg "cancel my appointment"],
      time_preference := some "monday|hour:9",
      asked_for_preference := true,
      available_slots := some [⟨"2025-03-03T11:00:00Z"⟩] }

/-- C1: the claim says the interrupt switch in `check_existing_flow` clears
the previous flow's scoped fields.  It does not: switching BOOK → CANCEL
leaves `available_slots` (and `time_preference`, `asked_for_preference`)
exactly as they were, so the BOOK work-set stays non-empty after the
switch. -/
theorem c1_counterexample :
    (check_existing_flow c1State).flow = "CANCEL" ∧
    (check_existing_flow c1State).intent = some "CANCEL" ∧
    (check_existing_flow c1State).available_slots = some [⟨"2025-03-03T11:00:00Z"⟩] ∧
    (check_existing_flow c1State).time_preference = some "monday|hour:9" ∧
    (check_existing_flow c1State).asked_for_preference = true := by
  decide

/-- C1 (amended): when `check_existing_flow` detects an interrupt to a
different flow, it rewrites `flow` and `intent` only; every other field —
in particular the previous flow's scoped working fields
(`available_slots`, `selected_slot`, `time_preference`,
`asked_for_preference`, `matched_events`, `selected_event_uri`) — is left
unchanged, so the entry check itself does not restore work-set
exclusivity. -/
theorem c1_switch_changes_only_flow_and_intent (st : AgentState) (m : Message) (nf : String)
    (hflow : st.flow ≠ "IDLE") (hm : lastUserMsg st = some m)
    (hdet : detectInterrupt (toLowerS m.content) = some nf) (hne : nf ≠ st.flow) :
    check_existing_flow st = { st with flow := nf, intent := some nf } := by
  unfold check_existing_flow
  rw [if_neg hflow, hm]
  simp only [hdet, hne, ne_eq, not_false_iff, if_true]

theorem c1_switch_witness :
    check_existing_flow c1State = { c1State with flow := "CANCEL", intent := some "CANCEL" } :=
  c1_switch_changes_only_flow_and_intent c1State (humanMsg "cancel my appointment") "CANCEL"
    (by decide) rfl (by decide) (by decide)

/-- Concrete mid-BOOK state for C8: the latest user message mentions
"reschedule" (which lexically contains the book keyword "schedule") and
"appointment" (another book keyword). -/
def c8State : AgentState :=
  { idleState with
      flow := "BOOK", intent := some "BOOK",
      messages := [humanMsg "Please reschedule my appointment"] }

/-- C8: the interrupt scan of `check_existing_flow` checks the cancel
family first, then the reschedule family, then the book family — so any
cancel keyword wins outright, and a reschedule keyword wins over the book
keywords it may lexically contain; and when no keyword matches or the
matched flow equals the current flow, the state passes through
unchanged. -/
theorem c8_interrupt_scan (st : AgentState) (m : Message)
    (hflow : st.flow ≠ "IDLE") (hm : lastUserMsg st = some m) :
    (containsAny (toLowerS m.content) cancel_keywords = true →
        detectInterrupt (toLowerS m.content) = some "CANCEL") ∧
    (containsAny (toLowerS m.content) cancel_keywords = false →
      (strContains (toLowerS m.content) "reschedule" || strContains (toLowerS m.content) "change"
        || strContains (toLowerS m.content) "move") = true →
        detectInterrupt (toLowerS m.content) = some "RESCHEDULE") ∧
    (containsAny (toLowerS m.content) cancel_keywords = false →
      (strContains (toLowerS m.content) "reschedule" || strContains (toLowerS m.content) "change"
        || strContains (toLowerS m.content) "move") = false →
      containsAny (toLowerS m.content) book_keywords = true →
        detectInterrupt (toLowerS m.content) = some "BOOK") ∧
    (detectInterrupt (toLowerS m.content) = none → check_existing_flow st = st) ∧
    (detectInterrupt (toLowerS m.content) = some st.flow → check_existing_flow st = st) := by
  refine ⟨?_, ?_, ?_, ?_, ?_⟩
  · intro h; simp [detectInterrupt, h]
  · intro h1 h2; simp [detectInterrupt, h1, h2]
  · intro h1 h2 h3; simp [detectInterrupt, h1, h2, h3]
  · intro h
    unfold check_existing_flow
    rw [if_neg hflow, hm]
    simp [h]
  · intro h
    unfold check_existing_flow
    rw [if_neg hflow, hm]
    simp [h]

theorem c8_scan_witness :
    detectInterrupt (toLowerS (humanMsg "Please reschedule my appointment").content) =
      some "RESCHEDULE" :=
  (c8_interrupt_scan c8State (humanMsg "Please reschedule my appointment")
      (by decide) rfl).2.1 (by decide) (by decide)

/-- Datetime stub for the C2 slots: a Monday 7pm slot and a Monday 11am
slot. -/
def c2ParseTime : String → Option TimeInfo := fun s =>
  if s = "2025-03-03T19:00:00Z" then some ⟨"monday", 19⟩
  else if s = "2025-03-03T11:00:00Z" then some ⟨"monday", 11⟩
  else none

/-- C2: the claim says every requested hour has a same-broad-period
fallback bucket with boundary morning < 12 vs afternoon/evening ≥ 12.
False: for requested hour 18 and a day-matching Monday 7pm slot (both ≥
12, hours differ) the code's fallback chain (`specific_hour < 12 ∧ 6 ≤
hour < 12`, else `12 ≤ specific_hour < 17 ∧ 12 ≤ hour < 17`) has no
branch, so the slot is not placed in the fallback bucket and the matcher
falls through to the no-match path. -/
theorem c2_counterexample :
    dayMatches ["monday"] "monday" = true ∧
    (12 ≤ (18 : Int) ∧ (12 : Nat) ≤ 19) ∧ ((19 : Int) ≠ 18) ∧
    slotFallbackMatch c2ParseTime ["monday"] (some 18) ⟨"2025-03-03T19:00:00Z"⟩ = false ∧
    matchSlots c2ParseTime "monday|hour:18" [⟨"2025-03-03T19:00:00Z"⟩] =
      some ([⟨"2025-03-03T19:00:00Z"⟩], noMatchHeader) := by
  decide

/-- C2 (amended): a day-matching slot whose hour differs from the
requested hour lands in the fallback bucket iff the requested hour is
before 12 and the slot's hour is in 6..11 (morning), or the requested
hour is in 12..16 and the slot's hour is in 12..16 (afternoon); requested
hours ≥ 17 have an empty fallback bucket, and morning requests exclude
slots before 6am. -/
theorem c2_fallback_condition (pt : String → Option TimeInfo) (days : List String)
    (sh : Int) (slot : Slot) (ti : TimeInfo)
    (hpt : pt slot.start_time = some ti)
    (hday : dayMatches days ti.dayName = true)
    (hne : (ti.hour : Int) ≠ sh) :
    slotFallbackMatch pt days (some sh) slot = true ↔
      ((sh < 12 ∧ 6 ≤ ti.hour ∧ ti.hour < 12) ∨
        (12 ≤ sh ∧ sh < 17 ∧ 12 ≤ ti.hour ∧ ti.hour < 17)) := by
  simp [slotFallbackMatch, hpt, hday, hne]

theorem c2_fallback_witness :
    slotFallbackMatch c2ParseTime ["monday"] (some 9) ⟨"2025-03-03T11:00:00Z"⟩ = true ↔
      (((9 : Int) < 12 ∧ 6 ≤ (11 : Nat) ∧ (11 : Nat) < 12) ∨
        (12 ≤ (9 : Int) ∧ (9 : Int) < 17 ∧ 12 ≤ (11 : Nat) ∧ (11 : Nat) < 17)) :=
  c2_fallback_condition c2ParseTime ["monday"] 9 ⟨"2025-03-03T11:00:00Z"⟩ ⟨"monday", 11⟩
    (by decide) (by decide) (by decide)

/-- C3: for a non-empty slot list, the availability matcher stores into
`available_slots` the first 10 of the exact bucket when that bucket is
non-empty; otherwise the first 10 of the fallback bucket when that is
non-empty (with the fallback-worded header); otherwise the first 10 of
all slots (with the no-match header).  For preference "any" it stores the
first 10 of all slots. -/
theorem c3_display_precedence (pt : String → Option TimeInfo)
    (fmt : List Slot → String) (st : AgentState) (slots : List Slot)
    (hslots : slots ≠ []) :
    (st.time_preference = some "any" →
      (booking_check_availability (.ok slots) pt fmt st).available_slots =
        some (slots.take 10)) ∧
    (∀ pref days sh gt,
      st.time_preference = some pref → pref ≠ "any" →
      prefComponents pref = some (days, sh, gt) →
      ((booking_check_availability (.ok slots) pt fmt st).available_slots =
          some (if slots.filter (slotExactMatch pt days sh gt) ≠ [] then
                  (slots.filter (slotExactMatch pt days sh gt)).take 10
                else if slots.filter (slotFallbackMatch pt days sh) ≠ [] then
                  (slots.filter (slotFallbackMatch pt days sh)).take 10
                else slots.take 10)) ∧
      (slots.filter (slotExactMatch pt days sh gt) = [] →
        slots.filter (slotFallbackMatch pt days sh) ≠ [] →
        ∃ rest, (booking_check_availability (.ok slots) pt fmt st).messages =
          st.messages ++ [aiMsg (fallbackHeader days sh ++ rest)]) ∧
      (slots.filter (slotExactMatch pt days sh gt) = [] →
        slots.filter (slotFallbackMatch pt days sh) = [] →
        ∃ rest, (booking_check_availability (.ok slots) pt fmt st).messages =
          st.messages ++ [aiMsg (noMatchHeader ++ rest)])) := by
  constructor
  · intro hpref
    simp [booking_check_availability, hslots, hpref, matchSlots]
  · intro pref days sh gt hpref hany hcomp
    have hnode : booking_check_availability (.ok slots) pt fmt st =
        { st with
            messages := st.messages ++ [aiMsg ((selectDisplay pt days sh gt slots).2
              ++ "\n\n" ++ fmt (selectDisplay pt days sh gt slots).1
              ++ "\n\nReply with the slot number to book (e.g., '2').")],
            available_slots := some (selectDisplay pt days sh gt slots).1,
            error := none } := by
      simp only [booking_check_availability, matchSlots]
      rw [if_neg hslots, hpref]
      simp only [if_neg hany, hcomp]
    refine ⟨?_, ?_, ?_⟩
    · rw [hnode]
      simp only [selectDisplay]
      split_ifs with h1 h2 <;> rfl
    · intro hex hfb
      refine ⟨"\n\n" ++ fmt ((slots.filter (slotFallbackMatch pt days sh)).take 10)
        ++ "\n\nReply with the slot number to book (e.g., '2').", ?_⟩
      rw [hnode]
      simp only [selectDisplay]
      split_ifs with h1
      · exact absurd hex h1
      · simp [String.append_assoc]
    · intro hex hfb
      refine ⟨"\n\n" ++ fmt (slots.take 10)
        ++ "\n\nReply with the slot number to book (e.g., '2').", ?_⟩
      rw [hnode]
      simp only [selectDisplay]
      split_ifs with h1 h2
      · exact absurd hex h1
      · exact absurd hfb h2
      · simp [String.append_assoc]

/-- Datetime stub for the C3 witness: a Monday 9am and a Tuesday 2pm slot. -/
def c3Pt : String → Option TimeInfo := fun s =>
  if s = "2025-03-03T09:00:00Z" then some ⟨"monday", 9⟩
  else if s = "2025-03-04T14:00:00Z" then some ⟨"tuesday", 14⟩
  else none

def c3Slots : List Slot := [⟨"2025-03-03T09:00:00Z"⟩, ⟨"2025-03-04T14:00:00Z"⟩]

def c3State : AgentState :=
  { idleState with
      flow := "BOOK", intent := some "BOOK",
      user_name := some "Jane Doe", user_email := some "jane@x.com",
      time_preference := some "tuesday|hour:14" }

theorem c3_precedence_witness :
    (booking_check_availability (.ok c3Slots) c3Pt fmtNone c3State).available_slots =
      some [⟨"2025-03-04T14:00:00Z"⟩] :=
  ((c3_display_precedence c3Pt fmtNone c3State c3Slots (by decide)).2
    "tuesday|hour:14" ["tuesday"] (some 14) none rfl (by decide) (by decide)).1

/-- C4: when any of `selected_slot`, `user_name`, `user_email` is missing
(falsy), `booking_create` returns the state with only `error` set, makes
no call to the scheduling service, and leaves everything else (messages
included) unchanged. -/
theorem c4_missing_precondition_errors (cr : Except String String)
    (xr : Except String Unit) (st : AgentState)
    (h : pyTruthyStr st.selected_slot = false ∨ pyTruthyStr st.user_name = false ∨
      pyTruthyStr st.user_email = false) :
    booking_create cr xr st =
      ({ st with error := some "Missing required information for booking" },
        ⟨false, false⟩) := by
  have hc : (pyTruthyStr st.selected_slot && pyTruthyStr st.user_name
      && pyTruthyStr st.user_email) = false := by
    rcases h with h | h | h <;> simp [h]
  simp [booking_create, hc]

theorem c4_witness :
    booking_create (.ok "Booked!") (.ok ()) idleState =
      ({ idleState with error := some "Missing required information for booking" },
        ⟨false, false⟩) :=
  c4_missing_precondition_errors (.ok "Booked!") (.ok ()) idleState (.inl (by decide))

/-- C5: every successful creation — in particular a RESCHEDULE whose
old-event cancellation fails, which still reports success with an
appended warning — resets `flow` to IDLE, clears `selected_slot`,
`available_slots`, `time_preference`, `matched_events`,
`selected_event_uri` and `error`, sets `asked_for_preference := false`,
and leaves `user_name`/`user_email` untouched. -/
theorem c5_success_resets (r : String) (xr : Except String Unit) (st : AgentState)
    (hs : pyTruthyStr st.selected_slot = true)
    (hn : pyTruthyStr st.user_name = true)
    (he : pyTruthyStr st.user_email = true)
    (hr : pyStartsWith r "ERROR" = false) :
    (booking_create (.ok r) xr st).1.flow = "IDLE" ∧
    (booking_create (.ok r) xr st).1.intent = none ∧
    (booking_create (.ok r) xr st).1.selected_slot = none ∧
    (booking_create (.ok r) xr st).1.available_slots = none ∧
    (booking_create (.ok r) xr st).1.time_preference = none ∧
    (booking_create (.ok r) xr st).1.asked_for_preference = false ∧
    (booking_create (.ok r) xr st).1.error = none ∧
    (booking_create (.ok r) xr st).1.matched_events = none ∧
    (booking_create (.ok r) xr st).1.selected_event_uri = none ∧
    (booking_create (.ok r) xr st).1.user_name = st.user_name ∧
    (booking_create (.ok r) xr st).1.user_email = st.user_email ∧
    (booking_create (.ok r) xr st).2.createCalled = true ∧
    (∀ e, xr = .error e → st.flow = "RESCHEDULE" →
      pyTruthyStr st.selected_event_uri = true →
      (booking_create (.ok r) xr st).1.messages = st.messages ++
        [aiMsg (r ++ ("\n\n⚠️ Warning: I booked your new appointment, but failed to cancel the old one. Error: " ++ e))]) := by
  have hc : (pyTruthyStr st.selected_slot && pyTruthyStr st.user_name
      && pyTruthyStr st.user_email) = true := by simp [hs, hn, he]
  refine ⟨?_, ?_, ?_, ?_, ?_, ?_, ?_, ?_, ?_, ?_, ?_, ?_, ?_⟩ <;>
    simp [booking_create, hc, hr]
  intro e hxr hflow huri
  subst hxr
  simp [hflow, huri]

def c5State : AgentState :=
  { idleState with
      flow := "RESCHEDULE", intent := some "RESCHEDULE",
      user_name := some "Jane Doe", user_email := some "jane@x.com",
      selected_slot := some "2025-03-04T14:00:00Z",
      selected_event_uri := some "https://api.calendly.com/scheduled_events/OLD" }

theorem c5_witness :
    (booking_create (.ok "Booked!") (.error "cancel failed") c5State).1.flow = "IDLE" ∧
    (booking_create (.ok "Booked!") (.error "cancel failed") c5State).1.user_email =
      some "jane@x.com" ∧
    (booking_create (.ok "Booked!") (.error "cancel failed") c5State).1.messages =
      [aiMsg ("Booked!" ++
        ("\n\n⚠️ Warning: I booked your new appointment, but failed to cancel the old one. Error: " ++ "cancel failed"))] := by
  have h := c5_success_resets "Booked!" (.error "cancel failed") c5State
    (by decide) (by decide) (by decide) (by decide)
  exact ⟨h.1, h.2.2.2.2.2.2.2.2.2.2.1,
    h.2.2.2.2.2.2.2.2.2.2.2.2 "cancel failed" rfl (by decide) (by decide)⟩

/-- C6: with slots on the table, an in-range integer reply selects that
slot's start timestamp and appends no message; an out-of-range integer
leaves `selected_slot` untouched, keeps the slots and re-prompts with the
valid range; non-integer text clears `available_slots` and appends no
message. -/
theorem c6_slot_selection (st : AgentState) (m : Message) (slots : List Slot)
    (hm : lastUserMsg st = some m)
    (hs : st.available_slots = some slots)
    (hne : slots ≠ []) :
    (∀ n : Int, pyInt? (trimS m.content) = some n →
      ((1 ≤ n ∧ n ≤ (slots.length : Int)) →
        parse_slot_selection st =
          { st with selected_slot := some (slots.getD (n.toNat - 1) default).start_time }) ∧
      (¬ (1 ≤ n ∧ n ≤ (slots.length : Int)) →
        parse_slot_selection st =
          { st with messages := st.messages ++
            [aiMsg ("Please choose a number between 1 and " ++ toString slots.length ++ ".")] })) ∧
    (pyInt? (trimS m.content) = none →
      parse_slot_selection st = { st with available_slots := none }) := by
  constructor
  · intro n hn
    constructor
    · intro hrange
      unfold parse_slot_selection
      rw [hm, hs]
      simp only [if_neg hne, hn, if_pos hrange]
    · intro hrange
      unfold parse_slot_selection
      rw [hm, hs]
      simp only [if_neg hne, hn, if_neg hrange]
  · intro hn
    unfold parse_slot_selection
    rw [hm, hs]
    simp only [if_neg hne, hn]

def c6State : AgentState :=
  { idleState with
      flow := "BOOK", intent := some "BOOK",
      user_name := some "Jane Doe", user_email := some "jane@x.com",
      time_preference := some "any",
      messages := [humanMsg "2"],
      available_slots := some [⟨"2025-03-03T09:00:00Z"⟩, ⟨"2025-03-04T14:00:00Z"⟩] }

theorem c6_witness :
    parse_slot_selection c6State =
      { c6State with selected_slot := some "2025-03-04T14:00:00Z" } :=
  ((c6_slot_selection c6State (humanMsg "2")
      [⟨"2025-03-03T09:00:00Z"⟩, ⟨"2025-03-04T14:00:00Z"⟩] rfl rfl (by decide)).1
    2 (by decide)).1 (by decide)

/-- Mid-CANCEL state with identity captured, used for the C7 theorems. -/
def c7State : AgentState :=
  { idleState with
      flow := "CANCEL", intent := some "CANCEL",
      user_name := some "Jane Doe", user_email := some "jane@x.com",
      selected_slot := some "2025-03-04T14:00:00Z",
      selected_event_uri := some "https://api.calendly.com/scheduled_events/EV1",
      messages := [humanMsg "yes"] }

/-- Keyword-free IDLE chat state used for the C7 theorems: the router and
the general-reply node reach their uncaught `llm.invoke` calls on it. -/
def c7ChatState : AgentState :=
  { idleState with messages := [humanMsg "hello there"] }

/-- C7: the claim fails twice on the code.  (i) `lookup_events` *does*
append a message when `list_scheduled_events` raises: it records the
error and appends "Error looking up appointments: ..." to `messages`.
(ii) Exceptions *do* escape the node boundary: the `llm.invoke` calls of
`router` and `respond_to_user` are wrapped in no `try`, so a raised
classification/generation failure propagates out of the node instead of
becoming data in the state. -/
theorem c7_counterexample :
    (lookup_events (fun _ => Except.error "boom") [] fmtBookingTime c7State).error =
      some "boom" ∧
    (lookup_events (fun _ => Except.error "boom") [] fmtBookingTime c7State).messages =
      c7State.messages ++ [aiMsg "Error looking up appointments: boom"] ∧
    (lookup_events (fun _ => Except.error "boom") [] fmtBookingTime c7State).messages ≠
      c7State.messages ∧
    router (Except.error "boom") c7ChatState = Except.error "boom" ∧
    respond_to_user (Except.error "boom") c7ChatState = Except.error "boom" := by
  refine ⟨by decide, by decide, by decide, rfl, rfl⟩

/-- C7 (amended): scheduling-service failures in
`booking_check_availability`, `booking_create`, `lookup_events` and
`confirm_action` are caught inside the node and recorded in `error` as a
string; `booking_check_availability` and `booking_create` append no
message on such a failure, while `lookup_events` and `confirm_action`
additionally append an error message.  Classification/generation (LLM)
failures are *not* caught: in `router`, `respond_to_user` and
`booking_collect_identity` the `llm.invoke` call sits outside any `try`,
so on the paths that reach it a raised failure escapes the node boundary
as an exception instead of being recorded in `error`. -/
theorem c7_error_capture (st : AgentState) (e : String)
    (pt : String → Option TimeInfo) (fmt : List Slot → String)
    (cr : Except String Unit) :
    (booking_check_availability (.error e) pt fmt st =
        { st with error := some ("ERROR: " ++ e) }) ∧
    (pyTruthyStr st.selected_slot = true →
     pyTruthyStr st.user_name = true →
     pyTruthyStr st.user_email = true →
      booking_create (.error e) cr st =
        ({ st with error := some ("ERROR: " ++ e) }, ⟨true, false⟩)) ∧
    (∀ rx fmtB em,
      pyOrStr (pyOrStr (newEmailOf st rx) st.lookup_email) st.user_email = some em →
      em ≠ "" →
      lookup_events (fun _ => Except.error e) rx fmtB st =
        { st with
            messages := st.messages ++ [aiMsg ("Error looking up appointments: " ++ e)],
            error := some e }) ∧
    (∀ m, lastUserMsg st = some m →
      (["yes", "y", "confirm", "sure"].contains (toLowerS (trimS m.content))) = true →
      pyTruthyStr st.selected_event_uri = true →
      confirm_action (Except.error e) st =
        { st with
            messages := st.messages ++ [aiMsg ("Error cancelling appointment: " ++ e)],
            error := some e }) ∧
    (∀ m, lastUserMsg st = some m →
      containsAny (toLowerS m.content) cancel_keywords = false →
      (strContains (toLowerS m.content) "reschedule" || strContains (toLowerS m.content) "change"
        || strContains (toLowerS m.content) "move") = false →
      containsAny (toLowerS m.content) book_keywords = false →
      router (Except.error e) st = Except.error e) ∧
    (∀ m, lastUserMsg st = some m →
      respond_to_user (Except.error e) st = Except.error e) ∧
    (∀ rx m, lastUserMsg st = some m →
      (pyTruthyStr st.user_name && pyTruthyStr st.user_email) = false →
      booking_collect_identity_raising (Except.error e) rx st = Except.error e) := by
  refine ⟨?_, ?_, ?_, ?_, ?_, ?_, ?_⟩
  · simp [booking_check_availability]
  · intro h1 h2 h3
    simp [booking_create, h1, h2, h3]
  · intro rx fmtB em hres hne
    simp only [lookup_events, hres]
    have ht : pyTruthyStr (some em) = true := by simp [pyTruthyStr, hne]
    rw [if_pos ht]
    simp [lookupCore]
  · intro m hm hyes huri
    simp only [confirm_action, hm]
    rw [if_pos hyes]
    simp [huri]
  · intro m hm h1 h2 h3
    simp [router, hm, h1, h2, h3]
  · intro m hm
    simp [respond_to_user, hm]
  · intro rx m hm hb
    simp [booking_collect_identity_raising, hb, hm]

theorem c7_witness :
    booking_check_availability (.error "boom") noTime fmtNone c7State =
      { c7State with error := some ("ERROR: " ++ "boom") } ∧
    booking_create (.error "boom") (.ok ()) c7State =
      ({ c7State with error := some ("ERROR: " ++ "boom") }, ⟨true, false⟩) ∧
    lookup_events (fun _ => Except.error "boom") ["jane@x.com"] fmtBookingTime c7State =
      { c7State with
          messages := c7State.messages ++ [aiMsg "Error looking up appointments: boom"],
          error := some "boom" } ∧
    confirm_action (Except.error "boom") c7State =
      { c7State with
          messages := c7State.messages ++ [aiMsg "Error cancelling appointment: boom"],
          error := some "boom" } ∧
    router (Except.error "boom") c7ChatState = Except.error "boom" ∧
    respond_to_user (Except.error "boom") c7ChatState = Except.error "boom" ∧
    booking_collect_identity_raising (Except.error "boom") [] c7ChatState =
      Except.error "boom" := by
  have h := c7_error_capture c7State "boom" noTime fmtNone (.ok ())
  have h2 := c7_error_capture c7ChatState "boom" noTime fmtNone (.ok ())
  exact ⟨h.1, h.2.1 (by decide) (by decide) (by decide),
    h.2.2.1 ["jane@x.com"] fmtBookingTime "jane@x.com" (by decide) (by decide),
    h.2.2.2.1 (humanMsg "yes") rfl (by decide) (by decide),
    h2.2.2.2.2.1 (humanMsg "hello there") rfl (by decide) (by decide) (by decide),
    h2.2.2.2.2.2.1 (humanMsg "hello there") rfl,
    h2.2.2.2.2.2.2 [] (humanMsg "hello there") rfl (by decide)⟩

/-- C9: the identity extractor is a no-op when both `user_name` and
`user_email` are already (truthily) set; and in every case each of the
two identity fields is either left exactly as it was or set to a
non-empty string — never cleared to `None` or overwritten with an empty
extraction result. -/
theorem c9_identity_sticky (llm : Option (Option String × Option String))
    (rx : List String) (st : AgentState) :
    (pyTruthyStr st.user_name = true → pyTruthyStr st.user_email = true →
      booking_collect_identity llm rx st = st) ∧
    ((booking_collect_identity llm rx st).user_name = st.user_name ∨
      pyTruthyStr (booking_collect_identity llm rx st).user_name = true) ∧
    ((booking_collect_identity llm rx st).user_email = st.user_email ∨
      pyTruthyStr (booking_collect_identity llm rx st).user_email = true) := by
  refine ⟨?_, ?_, ?_⟩
  · intro h1 h2
    simp [booking_collect_identity, h1, h2]
  · simp only [booking_collect_identity]
    split
    · exact Or.inl rfl
    · split
      · exact Or.inl rfl
      · split
        · split_ifs with h1 h2 <;> simp_all
        · split_ifs with h1 h2 <;> simp_all
  · simp only [booking_collect_identity]
    split
    · exact Or.inl rfl
    · split
      · exact Or.inl rfl
      · split
        · split_ifs with h1 h2 <;> simp_all
        · split_ifs with h1 h2 <;> simp_all

def c9State : AgentState :=
  { idleState with
      user_name := some "Jane Doe", user_email := some "jane@x.com",
      messages := [humanMsg "Actually I'm John Smith john@y.com"] }

theorem c9_witness :
    booking_collect_identity (some (some "John Smith", some "john@y.com"))
      ["john@y.com"] c9State = c9State :=
  (c9_identity_sticky (some (some "John Smith", some "john@y.com"))
    ["john@y.com"] c9State).1 (by decide) (by decide)

/-- C10: whenever the event lookup resolves an email and finds at least
one scheduled event for it, the returned state's `user_email` is that
lookup email — replacing whatever `user_email` held before. -/
theorem c10_lookup_sets_user_email (ls : String → Except String (List Booking))
    (rx : List String) (fmtB : Booking → String) (st : AgentState)
    (em : String) (bs : List Booking)
    (hres : pyOrStr (pyOrStr (newEmailOf st rx) st.lookup_email) st.user_email = some em)
    (hne : em ≠ "")
    (hok : ls em = .ok bs) (hbs : bs ≠ []) :
    (lookup_events ls rx fmtB st).user_email = some em := by
  simp only [lookup_events, hres]
  have ht : pyTruthyStr (some em) = true := by simp [pyTruthyStr, hne]
  rw [if_pos ht]
  simp only [Option.getD_some, lookupCore, hok]
  rw [if_neg hbs]

def c10Booking : Booking :=
  ⟨"https://api.calendly.com/scheduled_events/EV1", "2025-03-05T10:00:00Z", none⟩

def c10State : AgentState :=
  { idleState with
      flow := "CANCEL", intent := some "CANCEL",
      user_email := some "old@x.com",
      messages := [humanMsg "cancel the booking under new@x.com please"] }

theorem c10_witness :
    (lookup_events (fun e => if e = "new@x.com" then .ok [c10Booking] else .ok [])
        ["new@x.com"] fmtBookingTime c10State).user_email = some "new@x.com" ∧
    c10State.user_email = some "old@x.com" :=
  ⟨c10_lookup_sets_user_email (fun e => if e = "new@x.com" then .ok [c10Booking] else .ok [])
      ["new@x.com"] fmtBookingTime c10State "new@x.com" [c10Booking]
      (by decide) (by decide) rfl (by decide),
    rfl⟩

end AgenticDental
